import Mathlib

/-!
# Verification of the lagoon-restore-files-task orchestration core

Shallow embedding of the Go sources (`cmd/cmd.go`, `cmd/upload.go`,
`internal/task/restore.go`) of the `lagoon-restore-files-task` repository,
together with proofs about the embedded definitions.

External collaborators (the Kubernetes control plane, the k8up controller,
the archives library, the Lagoon API client) are modelled by explicit
oracle parameters or by definitions that follow their documented
behaviour; the repository's own decision and sequencing code is translated
directly.
-/

namespace RestoreFilesTask

/-! ## Status conditions (metav1.Condition as used by k8up restore status) -/

/-- A status condition: `metav1.Condition` restricted to the fields the
program reads (`Type`, `Status`, `Reason`, `Message`). `Status` is the
string `"True"`/`"False"`/`"Unknown"` as in `metav1.ConditionStatus`. -/
structure Condition where
  condType : String
  status : String
  reason : String
  message : String
deriving Repr, DecidableEq

/-- `meta.FindStatusCondition`: returns the first condition in the list
whose `Type` matches, or none. -/
def findStatusCondition (conds : List Condition) (t : String) : Option Condition :=
  conds.find? (fun c => c.condType == t)

/-! ## Task construction and derived resource names

`NewRestoreTask` (internal/task/restore.go) builds the task state; the task
key is `fmt.Sprintf("rft-%s", taskId)` and every cluster resource name is a
fixed `Sprintf` prefix applied to the key:
  * restore-target PVC: `fmt.Sprintf("target-%s", t.TaskKey)` (restore.go, `CreateRestorePVC`)
  * restore request:    `t.TaskKey` (restore.go, `StartRestore`)
  * archive-target PVC: `fmt.Sprintf("archive-target-%s", t.TaskKey)` (upload.go, `BootstrapUploadPod`)
  * upload pod:         `fmt.Sprintf("upload-%s", t.TaskKey)` (upload.go, `BootstrapUploadPod`)
-/

/-- `fmt.Sprintf("rft-%s", taskId)` from `NewRestoreTask`. -/
def taskKey (taskId : String) : String := "rft-" ++ taskId

/-- Name of the restore-target PVC created by `CreateRestorePVC`. -/
def restorePVCName (taskId : String) : String := "target-" ++ taskKey taskId

/-- Name of the k8up restore request created by `StartRestore`. -/
def restoreRequestName (taskId : String) : String := taskKey taskId

/-- Name of the archive-target PVC created in `BootstrapUploadPod`. -/
def archivePVCName (taskId : String) : String := "archive-target-" ++ taskKey taskId

/-- Name of the upload pod created in `BootstrapUploadPod`. -/
def uploadPodName (taskId : String) : String := "upload-" ++ taskKey taskId

/-- The full set of cluster-visible resource names one task run derives
from its task ID. -/
def derivedResourceNames (taskId : String) : List String :=
  [restorePVCName taskId, restoreRequestName taskId,
   archivePVCName taskId, uploadPodName taskId]

/-! ## cmd.Execute: configuration resolution and dispatch (cmd/cmd.go) -/

/-- `task.TaskArgs`: the advanced-task arguments carried in the
JSON_PAYLOAD environment variable. -/
structure TaskArgs where
  backupId : String
  restoreFilter : String
deriving Repr, DecidableEq

/-- The JSON_PAYLOAD handling at the top of `cmd.Execute`: when the env
var is non-empty, base64-decode it and JSON-unmarshal the bytes into
`TaskArgs`; the arguments are taken from the payload only when both steps
succeed, and otherwise stay at their zero value `""`. The decoder and the
unmarshaller are external library functions (`encoding/base64`,
`encoding/json`), passed as oracles returning `none` on error. -/
def loadPayloadArgs (b64decode : String → Option (List Nat))
    (jsonUnmarshal : List Nat → Option TaskArgs)
    (jsonPayloadEnv : String) : String × String :=
  if jsonPayloadEnv ≠ "" then
    match b64decode jsonPayloadEnv with
    | some payload =>
      match jsonUnmarshal payload with
      | some args => (args.backupId, args.restoreFilter)
      | none => ("", "")
    | none => ("", "")
  else ("", "")

/-- The resolved flag/environment configuration `cmd.Execute` works with
after `flag.Parse()`. -/
structure Config where
  backupId : String
  restoreFilter : String
  namespaceArg : String
  taskId : String
  tokenHost : String
  tokenPort : String
  apiHost : String
deriving Repr, DecidableEq

/-- `fmt.Sprintf("%04d", n)`: decimal rendering zero-padded to at least
width 4 (the argument is `rand.IntN(9999)`, hence below 9999). -/
def pad4 (n : Nat) : String :=
  if n < 10 then "000" ++ toString n
  else if n < 100 then "00" ++ toString n
  else if n < 1000 then "0" ++ toString n
  else toString n

/-- The task state built by `NewRestoreTask` (internal/task/restore.go).
Client construction is cluster plumbing and not modelled; the data fields
are translated directly, including the random task-ID fallback
`fmt.Sprintf("rnd-%04d", rand.IntN(9999))` taken when the supplied task ID
is empty (the random draw is the `randomId` oracle). -/
structure TaskState where
  backupId : String
  restoreFilter : String
  taskId : String
  key : String
  tokenHost : String
  tokenPort : String
  apiHost : String
deriving Repr, DecidableEq

def newRestoreTask (backupId restoreFilter taskId tokenHost tokenPort apiHost : String)
    (randomId : Nat) : TaskState :=
  let tid := if taskId == "" then "rnd-" ++ pad4 randomId else taskId
  { backupId := backupId, restoreFilter := restoreFilter, taskId := tid,
    key := taskKey tid, tokenHost := tokenHost, tokenPort := tokenPort,
    apiHost := apiHost }

/-- The action `cmd.Execute` takes after building the task: print usage,
terminate fatally on a validation failure, or enter one of the two
workflows with the constructed task state. -/
inductive ExecAction where
  | usage
  | fatalMissingUploadConfig
  | runUpload (t : TaskState)
  | fatalUnknownSubcommand
  | fatalMissingRestoreConfig
  | runRestore (t : TaskState)
deriving Repr, DecidableEq

/-- `cmd.Execute` after flag resolution: construct the task via
`NewRestoreTask`, then dispatch on the subcommand with the emptiness
checks exactly as written in cmd/cmd.go (upload: backup id, task id,
token host, token port, api host; restore: backup id, restore filter,
namespace, task id). -/
def executeDispatch (args : List String) (c : Config) (randomId : Nat) : ExecAction :=
  match args with
  | [] => .usage
  | subcommand :: _ =>
    let t := newRestoreTask c.backupId c.restoreFilter c.taskId
      c.tokenHost c.tokenPort c.apiHost randomId
    if subcommand == "upload" then
      if c.backupId == "" || c.taskId == "" || c.tokenHost == "" ||
          c.tokenPort == "" || c.apiHost == "" then
        .fatalMissingUploadConfig
      else
        .runUpload t
    else if subcommand != "restore" then
      .fatalUnknownSubcommand
    else if c.backupId == "" || c.restoreFilter == "" || c.namespaceArg == "" ||
        c.taskId == "" then
      .fatalMissingRestoreConfig
    else
      .runRestore t

/-! ## WaitForRestore (internal/task/restore.go): the watch loop -/

/-- An event delivered on the watch result channel: either a `*Restore`
object carrying status conditions, or an object of another type (the loop
skips those via the failed type assertion and `continue`). -/
inductive WatchEvent where
  | restoreObj (conds : List Condition)
  | other
deriving Repr, DecidableEq

/-- The body of the `for event := range w.ResultChan()` loop in
`WaitForRestore`, for a `*Restore` event: the log lines printed for this
event and whether the loop breaks after it. Mirrors the three condition
inspections in order: log Ready's message and break when Ready's reason is
"CreationFailed"; otherwise log Progressing's message when its status is
"True"; break when Completed's status is "True". -/
def processRestoreEvent (conds : List Condition) : List String × Bool :=
  let ready := findStatusCondition conds "Ready"
  let readyLog := match ready with
    | some r => ["Restore progress: " ++ r.message]
    | none => []
  let creationFailed := match ready with
    | some r => r.reason == "CreationFailed"
    | none => false
  if creationFailed then
    (readyLog, true)
  else
    let progressing := findStatusCondition conds "Progressing"
    let progressingLog := match progressing with
      | some p => if p.status == "True" then ["Restore progress: " ++ p.message] else []
      | none => []
    let completed := findStatusCondition conds "Completed"
    let completedBreaks := match completed with
      | some comp => comp.status == "True"
      | none => false
    (readyLog ++ progressingLog, completedBreaks)

/-- Log lines the loop prints for one event (non-restore events log nothing). -/
def eventLogs : WatchEvent → List String
  | .restoreObj conds => (processRestoreEvent conds).1
  | .other => []

/-- Stated from the claim: an event is terminal when its Ready condition
has reason "CreationFailed" or its Completed condition has status true;
events that are not restore objects are never terminal. This is the
specification-side predicate the loop's exit point is compared with. -/
def isTerminalEvent : WatchEvent → Bool
  | .restoreObj conds =>
    ((findStatusCondition conds "Ready").any fun r => r.reason == "CreationFailed") ||
    ((findStatusCondition conds "Completed").any fun c => c.status == "True")
  | .other => false

/-- Index of the first terminal event in a delivered event sequence, per
the claim's description. -/
def firstTerminal : List WatchEvent → Option Nat
  | [] => none
  | e :: rest =>
    if isTerminalEvent e then some 0 else (firstTerminal rest).map (· + 1)

/-- The wait loop of `WaitForRestore` over the finite sequence of events
the channel delivers before closing: accumulated log lines, number of
events consumed, and whether the loop exited via `break` (`false` means
the channel closed first). -/
def waitLoop : List WatchEvent → List String × Nat × Bool
  | [] => ([], 0, false)
  | e :: rest =>
    match e with
    | .other =>
      let r := waitLoop rest
      (r.1, r.2.1 + 1, r.2.2)
    | .restoreObj conds =>
      if (processRestoreEvent conds).2 then
        ((processRestoreEvent conds).1, 1, true)
      else
        let r := waitLoop rest
        ((processRestoreEvent conds).1 ++ r.1, r.2.1 + 1, r.2.2)

/-- Outcome of one `WaitForRestore` call. `watchesStarted` and
`watchesStopped` count the server-side watch sessions opened and released
by the call. -/
structure WaitOutcome where
  err : Option String
  logs : List String
  consumed : Nat
  exitedViaBreak : Bool
  watchesStarted : Nat
  watchesStopped : Nat
deriving Repr, DecidableEq

/-- `WaitForRestore`: opening the watch may fail (oracle `none`), in which
case the wrapped error is returned and no watch exists to stop; otherwise
the loop runs over the delivered events, the watch is stopped (deferred
`w.Stop()` plus the explicit call after the loop release the one session),
and the function returns nil. -/
def waitForRestore (watch : Option (List WatchEvent)) : WaitOutcome :=
  match watch with
  | none =>
    { err := some "failed to watch restore", logs := [], consumed := 0,
      exitedViaBreak := false, watchesStarted := 0, watchesStopped := 0 }
  | some events =>
    let (logs, n, b) := waitLoop events
    { err := none, logs := logs, consumed := n, exitedViaBreak := b,
      watchesStarted := 1, watchesStopped := 1 }

/-- A concrete event sequence used to exercise the wait loop. -/
def sampleEvents : List WatchEvent :=
  [WatchEvent.restoreObj [Condition.mk "Progressing" "True" "Started" "p1"],
   WatchEvent.restoreObj [Condition.mk "Completed" "True" "Finished" "done"],
   WatchEvent.restoreObj [Condition.mk "Progressing" "True" "Started" "never"]]

/-! ## StartRestore (internal/task/restore.go) -/

/-- The backend configuration of a k8up Schedule (`schedule.Spec.Backend`),
opaque data copied verbatim into the restore request. -/
structure Backend where
  config : String
deriving Repr, DecidableEq

/-- A k8up Schedule, reduced to the one field `StartRestore` reads. -/
structure Schedule where
  backend : Backend
deriving Repr, DecidableEq

/-- The k8up Restore resource fields populated by `StartRestore`. -/
structure RestoreResource where
  name : String
  snapshot : String
  restoreFilter : String
  folderClaimName : String
  backend : Backend
  keepJobs : Option Int
  failedJobsHistoryLimit : Option Int
deriving Repr, DecidableEq

/-- `StartRestore`: load the Schedule named "k8up-lagoon-backup-schedule"
from the namespace (the `schedules` oracle models `t.Client.Get`); if it
is absent, fail without creating anything. Otherwise construct one Restore
named by the task key, with the snapshot and filter from the task args,
the folder restore method referencing the given PVC, the schedule's
backend, and both `KeepJobs` and `FailedJobsHistoryLimit` pointing at the
value 1, and create it (`createErr` models `t.Client.Create` failing).
Returns the result together with the list of restore requests actually
created in the cluster. -/
def startRestore (t : TaskState) (schedules : String → Option Schedule)
    (createErr : Option String) (pvcName : String) :
    Except String RestoreResource × List RestoreResource :=
  match schedules "k8up-lagoon-backup-schedule" with
  | none => (.error "failed to get schedule", [])
  | some schedule =>
    let newRestore : RestoreResource := {
      name := t.key,
      snapshot := t.backupId,
      restoreFilter := t.restoreFilter,
      folderClaimName := pvcName,
      backend := schedule.backend,
      keepJobs := some 1,
      failedJobsHistoryLimit := some 1 }
    match createErr with
    | some e => (.error ("failed to create restore: " ++ e), [])
    | none => (.ok newRestore, [newRestore])

/-! ## UploadArchiveToLagoon (internal/task/restore.go) -/

/-- Numeric value of a decimal digit character. -/
def digitVal (ch : Char) : Nat := ch.toNat - '0'.toNat

/-- The syntax accepted by `strconv.Atoi` / `strconv.ParseInt`: an
optional sign followed by one or more decimal digits. Returns the parsed
integer, or `none` for a syntax error (Go then returns 0 alongside
`ErrSyntax`); 64-bit range clamping is applied in `goAtoi`. -/
def parseDecInt? (s : String) : Option Int :=
  match s.data with
  | [] => none
  | ch :: rest =>
    let (neg, digits) :=
      if ch == '-' then (true, rest)
      else if ch == '+' then (false, rest)
      else (false, ch :: rest)
    if digits.isEmpty then none
    else if digits.all Char.isDigit then
      let v : Nat := digits.foldl (fun acc d => acc * 10 + digitVal d) 0
      some (if neg then -(v : Int) else (v : Int))
    else none

/-- `strconv.Atoi` with its error discarded, as in
`taskId, _ := strconv.Atoi(t.TaskId)`: a syntax error yields 0; a value
out of the 64-bit range is clamped to the nearest extreme (ErrRange, also
discarded). -/
def goAtoi (s : String) : Int :=
  match parseDecInt? s with
  | none => 0
  | some v =>
    if v > (2 ^ 63 - 1 : Int) then 2 ^ 63 - 1
    else if v < (-(2 ^ 63) : Int) then -(2 ^ 63)
    else v

/-- A file-upload request submitted to the Lagoon API by
`lagoon.UploadFilesForTask`: the numeric task record id and file names. -/
structure UploadCall where
  taskRecordId : Int
  files : List String
deriving Repr, DecidableEq

/-- `UploadArchiveToLagoon`: retrieve an SSH token (oracle; failure is
fatal to the upload), convert the task ID with `strconv.Atoi` discarding
the conversion error, build the API client, and submit the archive file
against that numeric task record id (`uploadErr` models the API call
failing). Returns the result together with the upload call made, if any. -/
def uploadArchiveToLagoon (t : TaskState) (retrieveToken : Except String String)
    (uploadErr : Option String) (archiveName : String) :
    Except String Unit × Option UploadCall :=
  match retrieveToken with
  | .error e => (.error ("failed to get Lagoon token: " ++ e), none)
  | .ok _ =>
    let call : UploadCall := { taskRecordId := goAtoi t.taskId, files := [archiveName] }
    match uploadErr with
    | some e => (.error ("failed to upload restore to Lagoon task: " ++ e), some call)
    | none => (.ok (), some call)

/-! ## ArchiveRestore (internal/task/restore.go) and the archives library -/

/-- A directory on disk as the archiver sees it: regular files at
relative paths below the root, with byte contents. -/
structure SourceDir where
  files : List (String × List Nat)
deriving Repr, DecidableEq

/-- One entry of a tar archive: its name inside the archive and its byte
contents. -/
structure ArchiveEntry where
  nameInArchive : String
  data : List Nat
deriving Repr, DecidableEq

/-- Path-element processing of Go's `filepath.Clean` (Unix rules): empty
and "." elements are dropped; ".." pops the previous element when one
exists and is not itself "..", is dropped at the root of a rooted path,
and is kept at the start of a relative path. -/
def cleanElems (rooted : Bool) : List String → List String → List String
  | [], acc => acc.reverse
  | e :: rest, acc =>
    if e = "" ∨ e = "." then cleanElems rooted rest acc
    else if e = ".." then
      match acc with
      | top :: below =>
        if top = ".." then cleanElems rooted rest (".." :: top :: below)
        else cleanElems rooted rest below
      | [] =>
        if rooted then cleanElems rooted rest []
        else cleanElems rooted rest [".."]
    else cleanElems rooted rest (e :: acc)

/-- `path/filepath.Clean` for slash-separated paths: the shortest lexical
equivalent of the path, "." when the result would be empty, with a
leading "/" preserved. -/
def goFilepathClean (path : String) : String :=
  if path = "" then "."
  else
    let rooted := path.startsWith "/"
    let body := String.intercalate "/" (cleanElems rooted (path.splitOn "/") [])
    if rooted then "/" ++ body
    else if body = "" then "." else body

/-- The trailing-separator check of the archives library: the on-disk
name's last byte is the separator '/'. -/
def endsWithSlash (s : String) : Bool := s.data.getLast? == some '/'

/-- How the archives library joins the mapped archive prefix with a path
relative to the walked root: an empty prefix leaves the relative path
untouched. -/
def joinArchiveName (pre rel : String) : String :=
  if pre = "" then rel else pre ++ "/" ++ rel

/-- Base name of a path: the part after the last separator. -/
def baseName (s : String) : String := ((s.splitOn "/").getLast?).getD s

/-- `archives.FilesFromDisk` restricted to the single-mapping form used by
`ArchiveRestore`, per the library's documented semantics: when the on-disk
directory name ends in the separator "/", only the directory's CONTENTS
are enumerated, each archived under the mapped prefix joined with its
path relative to the root and with no entry for the directory itself;
without the trailing separator the directory itself becomes an entry
(under the mapped name, or its base name when the mapped name is empty)
with its contents below it. -/
def filesFromDisk (dir : SourceDir) (diskPath : String) (mapped : String) :
    List ArchiveEntry :=
  if endsWithSlash diskPath then
    dir.files.map (fun f => ArchiveEntry.mk (joinArchiveName mapped f.1) f.2)
  else
    let root := if mapped = "" then baseName diskPath else mapped
    ArchiveEntry.mk root [] ::
      dir.files.map (fun f => ArchiveEntry.mk (root ++ "/" ++ f.1) f.2)

/-- The tar+gzip pipeline `format.Archive`: writes the file list in order
as the archive's entries (gzip is a byte-level codec below the entry
structure and does not alter it). -/
def tarGzArchive (entries : List ArchiveEntry) : List ArchiveEntry := entries

/-- Unpacking a tar archive: the relative-path/content pairs it restores. -/
def unpackArchive (entries : List ArchiveEntry) : List (String × List Nat) :=
  entries.map (fun e => (e.nameInArchive, e.data))

/-- `ArchiveRestore`: `os.Stat` the restore target (the `disk` oracle
yields the directory when the path exists), map the cleaned,
"/"-terminated target to the empty archive prefix
(`map[string]string{rTarget: ""}`), build the file list with
`archives.FilesFromDisk` and archive it as tar+gz at
`filepath.Join(archiveTarget, "restore-<backupId>-t<taskId>.tar.gz")`.
Returns the archive file name and the entries written. -/
def archiveRestore (t : TaskState) (disk : String → Option SourceDir)
    (restoreTarget : String) (archiveTarget : String) :
    Except String (String × List ArchiveEntry) :=
  match disk restoreTarget with
  | none => .error ("invaid restore target " ++ restoreTarget)
  | some dir =>
    let rTarget := goFilepathClean restoreTarget ++ "/"
    let files := filesFromDisk dir rTarget ""
    let aTarget := goFilepathClean
      (archiveTarget ++ "/" ++ ("restore-" ++ t.backupId ++ "-t" ++ t.taskId ++ ".tar.gz"))
    .ok (aTarget, tarGzArchive files)

/-- A concrete source directory used to exercise the archiver. -/
def sampleDir : SourceDir := SourceDir.mk [("css/a.css", [1, 2]), ("b.txt", [])]

/-! ## Terminal-state classification of a restore run -/

/-- Classification of a restore run from its final status conditions. -/
inductive RestoreClassification where
  | success
  | failed (message : String)
  | creationFailed (message : String)
  | failedRaw (rawStatus : List Condition)
deriving Repr, DecidableEq

/-- Modelled from the spec: the terminal-state classification performed by
`cmd.RestoreToPVC` after the wait completes; that function is not among
the provided sources (only its caller `cmd.Execute` is). Follows the state
table of §4.2: Completed with status true is success; Completed present
(not true) with reason "Failed" is a failure surfacing the condition's
message; with no Completed condition, Ready with reason "CreationFailed"
failed before starting, and any other status — in particular no Completed
condition at all — is treated as failure with the raw status dumped
verbatim for diagnosis. -/
def classifyRestoreStatus (conds : List Condition) : RestoreClassification :=
  match findStatusCondition conds "Completed" with
  | some comp =>
    if comp.status == "True" then .success
    else if comp.reason == "Failed" then .failed comp.message
    else .failedRaw conds
  | none =>
    match findStatusCondition conds "Ready" with
    | some r =>
      if r.reason == "CreationFailed" then .creationFailed r.message
      else .failedRaw conds
    | none => .failedRaw conds

/-- Whether a classification is a failure (anything but success). -/
def RestoreClassification.isFailure : RestoreClassification → Bool
  | .success => false
  | _ => true

/-! ## Cleanup (internal/task/restore.go) and the workflow's cleanup accounting -/

/-- One deletion attempt performed during a cleanup pass: the resource
name and the error logged when the delete failed (none when it
succeeded). -/
structure DeleteAttempt where
  resource : String
  logged : Option String
deriving Repr, DecidableEq

/-- One best-effort deletion as written in `Cleanup`: `t.Client.Delete`
the named resource (the `deleteErr` oracle yields the error, if any —
for instance a not-found error when the resource was already deleted) and
log `"Failed to clean up <kind>: <err>"` on failure; nothing is deleted
for a nil argument. Returns the attempts made and the log lines. -/
def deleteBestEffort (deleteErr : String → Option String) (kind : String) :
    Option String → List DeleteAttempt × List String
  | some nm =>
    match deleteErr nm with
    | some e => ([DeleteAttempt.mk nm (some e)],
        ["Failed to clean up " ++ kind ++ ": " ++ e])
    | none => ([DeleteAttempt.mk nm none], [])
  | none => ([], [])

/-- `Cleanup(pvc, restore)` (internal/task/restore.go): delete the Restore
when non-nil, then the PVC when non-nil; each in the best-effort,
log-only-on-error fashion of `deleteBestEffort`. -/
def cleanup (deleteErr : String → Option String)
    (pvc restore : Option String) : List DeleteAttempt × List String :=
  let r := deleteBestEffort deleteErr "restore" restore
  let p := deleteBestEffort deleteErr "pvc" pvc
  (r.1 ++ p.1, r.2 ++ p.2)

/-- Modelled from the spec: the three-argument `Cleanup(pvc, restore, pod)`
variant called by `BootstrapUploadPod` (cmd/upload.go) is not among the
provided sources (src holds the two-argument variant). Per §3 ("Upload
Pod ... Deleted during cleanup regardless of outcome") and §5 ("deletion
errors are logged and do not abort or retry"): the two-argument cleanup
extended by the same best-effort deletion of the pod. -/
def cleanup3 (deleteErr : String → Option String)
    (pvc restore pod : Option String) : List DeleteAttempt × List String :=
  let base := cleanup deleteErr pvc restore
  let q := deleteBestEffort deleteErr "pod" pod
  (base.1 ++ q.1, base.2 ++ q.2)

/-- Failure injection for the cluster calls made by `BootstrapUploadPod`
(cmd/upload.go): the current pod's image when the PODNAME Get succeeds,
the errors (if any) of creating the archive PVC, creating the upload pod,
waiting for it, and re-fetching it, and the pod's failure message when its
terminal phase is Failed. -/
structure ClusterOutcomes where
  selfImage : Option String
  createArchivePVCErr : Option String
  createPodErr : Option String
  waitErr : Option String
  getPodErr : Option String
  podFailedMessage : Option String
deriving Repr, DecidableEq

/-- The cleanup-relevant outcome of one `BootstrapUploadPod` call. -/
structure BootstrapRun where
  result : Except String Unit
  cleanupPasses : Nat
  returnsCleanup : Bool
  resourcesCreated : Bool
deriving Repr

/-- `BootstrapUploadPod` (cmd/upload.go), reduced to its control flow and
cleanup accounting: determine the image (the current pod's image when
available, else the `-task-image` flag; error before creating anything
when both are empty), then create the archive PVC and upload pod, wait,
and inspect the pod's terminal phase — on the error path of every step
after image determination exactly one `t.Cleanup(&archivePVC, nil, &pod)`
pass runs before the error is returned, and on success no internal pass
runs but a cleanup closure is returned to the caller. -/
def bootstrapUploadPod (oc : ClusterOutcomes) (taskImage : String) : BootstrapRun :=
  let image := match oc.selfImage with
    | some img => img
    | none => taskImage
  if image = "" then
    { result := .error "failed to determine task image", cleanupPasses := 0,
      returnsCleanup := false, resourcesCreated := false }
  else
    match oc.createArchivePVCErr with
    | some e =>
      { result := .error ("failed to create archive destination: " ++ e),
        cleanupPasses := 1, returnsCleanup := false, resourcesCreated := true }
    | none =>
      match oc.createPodErr with
      | some e =>
        { result := .error ("failed to create upload pod: " ++ e),
          cleanupPasses := 1, returnsCleanup := false, resourcesCreated := true }
      | none =>
        match oc.waitErr with
        | some e =>
          { result := .error ("failed to wait for upload: " ++ e),
            cleanupPasses := 1, returnsCleanup := false, resourcesCreated := true }
        | none =>
          match oc.getPodErr with
          | some e =>
            { result := .error ("upload failed: failed to get upload pod: " ++ e),
              cleanupPasses := 1, returnsCleanup := false, resourcesCreated := true }
          | none =>
            match oc.podFailedMessage with
            | some m =>
              { result := .error ("upload failed: " ++ m),
                cleanupPasses := 1, returnsCleanup := false, resourcesCreated := true }
            | none =>
              { result := .ok (), cleanupPasses := 0,
                returnsCleanup := true, resourcesCreated := true }

/-- Cleanup accounting of one whole restore-workflow run. -/
structure WorkflowRun where
  fatal : Bool
  restoreSetCleanupPasses : Nat
  bootstrapSetCleanupPasses : Nat
  bootstrapResourcesCreated : Bool
deriving Repr, DecidableEq

/-- The restore workflow of `cmd.Execute` (cmd.go) with `RestoreToPVC`
modelled from the spec (§4.6, the function is not among the provided
sources): on failure `RestoreToPVC` has already cleaned up what it created
before returning the error (one pass over the restore resource set), on
success its cleanup closure is handed back and invoked by `Execute`
exactly once on each of its paths — after the bootstrap on success, before
`log.Fatalf` when the bootstrap fails, directly when `-skip-bootstrap` is
set. `BootstrapUploadPod`'s own error paths run their one internal
cleanup pass; its closure is invoked once by `Execute` on success. -/
def restoreWorkflow (restoreOk : Bool) (oc : ClusterOutcomes) (taskImage : String)
    (skipBootstrap : Bool) : WorkflowRun :=
  if !restoreOk then
    { fatal := true, restoreSetCleanupPasses := 1, bootstrapSetCleanupPasses := 0,
      bootstrapResourcesCreated := false }
  else if skipBootstrap then
    { fatal := false, restoreSetCleanupPasses := 1, bootstrapSetCleanupPasses := 0,
      bootstrapResourcesCreated := false }
  else
    let b := bootstrapUploadPod oc taskImage
    match b.result with
    | .error _ =>
      { fatal := true, restoreSetCleanupPasses := 1,
        bootstrapSetCleanupPasses := b.cleanupPasses,
        bootstrapResourcesCreated := b.resourcesCreated }
    | .ok _ =>
      { fatal := false, restoreSetCleanupPasses := 1,
        bootstrapSetCleanupPasses := b.cleanupPasses + 1,
        bootstrapResourcesCreated := b.resourcesCreated }

/-! ### String helper lemmas -/

theorem string_data_inj {a b : String} (h : a.data = b.data) : a = b := by
  cases a
  cases b
  exact congrArg String.mk h

theorem string_append_left_cancel {p x y : String} (h : p ++ x = p ++ y) : x = y := by
  have h2 := congrArg String.data h
  rw [String.data_append, String.data_append] at h2
  exact string_data_inj (List.append_cancel_left h2)

theorem ne_of_data_head_ne {a b : String} {c d : Char} {as bs : List Char}
    (ha : a.data = c :: as) (hb : b.data = d :: bs) (hcd : c ≠ d) : a ≠ b := by
  intro e
  apply hcd
  have hh : c :: as = d :: bs := by rw [← ha, ← hb, e]
  injection hh with h1 _

theorem taskKey_data (x : String) :
    (taskKey x).data = 'r' :: 'f' :: 't' :: '-' :: x.data := by
  show ("rft-" ++ x).data = _
  rw [String.data_append]
  rfl

theorem restorePVCName_data (x : String) :
    (restorePVCName x).data =
      't' :: ('a' :: 'r' :: 'g' :: 'e' :: 't' :: '-' :: (taskKey x).data) := by
  show ("target-" ++ taskKey x).data = _
  rw [String.data_append]
  rfl

theorem archivePVCName_data (x : String) :
    (archivePVCName x).data =
      'a' :: ('r' :: 'c' :: 'h' :: 'i' :: 'v' :: 'e' :: '-' :: 't' :: 'a' :: 'r' :: 'g' :: 'e' :: 't' :: '-' :: (taskKey x).data) := by
  show ("archive-target-" ++ taskKey x).data = _
  rw [String.data_append]
  rfl

theorem uploadPodName_data (x : String) :
    (uploadPodName x).data =
      'u' :: ('p' :: 'l' :: 'o' :: 'a' :: 'd' :: '-' :: (taskKey x).data) := by
  show ("upload-" ++ taskKey x).data = _
  rw [String.data_append]
  rfl

theorem restoreRequestName_data (x : String) :
    (restoreRequestName x).data = 'r' :: ('f' :: 't' :: '-' :: x.data) := by
  show (taskKey x).data = _
  rw [taskKey_data]

theorem taskKey_inj {x y : String} (h : taskKey x = taskKey y) : x = y :=
  string_append_left_cancel h

theorem restorePVCName_inj {x y : String} (h : restorePVCName x = restorePVCName y) :
    x = y :=
  taskKey_inj (string_append_left_cancel h)

theorem restoreRequestName_inj {x y : String}
    (h : restoreRequestName x = restoreRequestName y) : x = y :=
  taskKey_inj h

theorem archivePVCName_inj {x y : String} (h : archivePVCName x = archivePVCName y) :
    x = y :=
  taskKey_inj (string_append_left_cancel h)

theorem uploadPodName_inj {x y : String} (h : uploadPodName x = uploadPodName y) :
    x = y :=
  taskKey_inj (string_append_left_cancel h)

theorem restorePVCName_ne_restoreRequestName (x y : String) :
    restorePVCName x ≠ restoreRequestName y :=
  ne_of_data_head_ne (restorePVCName_data x) (restoreRequestName_data y) (by decide)

theorem restorePVCName_ne_archivePVCName (x y : String) :
    restorePVCName x ≠ archivePVCName y :=
  ne_of_data_head_ne (restorePVCName_data x) (archivePVCName_data y) (by decide)

theorem restorePVCName_ne_uploadPodName (x y : String) :
    restorePVCName x ≠ uploadPodName y :=
  ne_of_data_head_ne (restorePVCName_data x) (uploadPodName_data y) (by decide)

theorem restoreRequestName_ne_archivePVCName (x y : String) :
    restoreRequestName x ≠ archivePVCName y :=
  ne_of_data_head_ne (restoreRequestName_data x) (archivePVCName_data y) (by decide)

theorem restoreRequestName_ne_uploadPodName (x y : String) :
    restoreRequestName x ≠ uploadPodName y :=
  ne_of_data_head_ne (restoreRequestName_data x) (uploadPodName_data y) (by decide)

theorem archivePVCName_ne_uploadPodName (x y : String) :
    archivePVCName x ≠ uploadPodName y :=
  ne_of_data_head_ne (archivePVCName_data x) (uploadPodName_data y) (by decide)

/-- C2: every cluster-visible resource created by one task (restore-target
PVC, restore request, archive-target PVC, upload pod) is named by a fixed
prefix applied to the task key `"rft-" ++ taskId`; the four names of one
run are pairwise distinct, and for two distinct task IDs the derived name
sets are disjoint: no collision between concurrent runs. -/
theorem derived_resource_names_no_collision (i j : String) (h : i ≠ j) :
    (∀ x : String, derivedResourceNames x =
      ["target-" ++ taskKey x, taskKey x,
       "archive-target-" ++ taskKey x, "upload-" ++ taskKey x]) ∧
    (derivedResourceNames i).Pairwise (· ≠ ·) ∧
    ∀ m ∈ derivedResourceNames i, ∀ n ∈ derivedResourceNames j, m ≠ n := by
  refine ⟨fun x => rfl, ?_, ?_⟩
  · simp only [derivedResourceNames, List.pairwise_cons, List.mem_cons,
      List.mem_singleton, List.not_mem_nil, or_false, false_implies, implies_true,
      and_true]
    refine ⟨?_, ?_, ?_⟩
    · rintro a (rfl | rfl | rfl)
      · exact restorePVCName_ne_restoreRequestName i i
      · exact restorePVCName_ne_archivePVCName i i
      · exact restorePVCName_ne_uploadPodName i i
    · rintro a (rfl | rfl)
      · exact restoreRequestName_ne_archivePVCName i i
      · exact restoreRequestName_ne_uploadPodName i i
    · exact ⟨fun a ha => ha ▸ archivePVCName_ne_uploadPodName i i, trivial, List.Pairwise.nil⟩
  · intro m hm n hn
    simp only [derivedResourceNames, List.mem_cons, List.mem_singleton,
      List.not_mem_nil, or_false] at hm hn
    rcases hm with rfl | rfl | rfl | rfl <;> rcases hn with rfl | rfl | rfl | rfl
    · exact fun e => h (restorePVCName_inj e)
    · exact restorePVCName_ne_restoreRequestName i j
    · exact restorePVCName_ne_archivePVCName i j
    · exact restorePVCName_ne_uploadPodName i j
    · exact fun e => restorePVCName_ne_restoreRequestName j i e.symm
    · exact fun e => h (restoreRequestName_inj e)
    · exact restoreRequestName_ne_archivePVCName i j
    · exact restoreRequestName_ne_uploadPodName i j
    · exact fun e => restorePVCName_ne_archivePVCName j i e.symm
    · exact fun e => restoreRequestName_ne_archivePVCName j i e.symm
    · exact fun e => h (archivePVCName_inj e)
    · exact archivePVCName_ne_uploadPodName i j
    · exact fun e => restorePVCName_ne_uploadPodName j i e.symm
    · exact fun e => restoreRequestName_ne_uploadPodName j i e.symm
    · exact fun e => archivePVCName_ne_uploadPodName j i e.symm
    · exact fun e => h (uploadPodName_inj e)

/-- Witness for `derived_resource_names_no_collision` at task IDs "1" and "2". -/
theorem derived_resource_names_no_collision_witness :
    ("1" : String) ≠ "2" ∧
    ((derivedResourceNames "1").Pairwise (· ≠ ·) ∧
      ∀ m ∈ derivedResourceNames "1", ∀ n ∈ derivedResourceNames "2", m ≠ n) :=
  ⟨by decide, (derived_resource_names_no_collision "1" "2" (by decide)).2⟩

/-- C6 counterexample: with an empty backup ID but non-empty task ID,
token host, token port and API host, the upload subcommand still
terminates fatally at validation — the claim's "if and only if the task ID
and all three upload-endpoint parameters are non-empty" is falsified,
because cmd.go's upload check also requires a non-empty backup ID. -/
theorem upload_validation_counterexample :
    (Config.mk "" "" "" "t" "h" "p" "a").taskId ≠ "" ∧
    (Config.mk "" "" "" "t" "h" "p" "a").tokenHost ≠ "" ∧
    (Config.mk "" "" "" "t" "h" "p" "a").tokenPort ≠ "" ∧
    (Config.mk "" "" "" "t" "h" "p" "a").apiHost ≠ "" ∧
    executeDispatch ["upload"] (Config.mk "" "" "" "t" "h" "p" "a") 0 =
      ExecAction.fatalMissingUploadConfig := by
  decide

/-- C6 (amended): in upload mode the process proceeds past configuration
validation if and only if the backup ID, the task ID and all three
upload-endpoint parameters (token host, token port, API host) are
non-empty; if any of these is empty it terminates fatally at the
validation check. -/
theorem executeDispatch_cons (s : String) (rest : List String) (c : Config) (r : Nat) :
    executeDispatch (s :: rest) c r =
      (if s == "upload" then
        if c.backupId == "" || c.taskId == "" || c.tokenHost == "" ||
            c.tokenPort == "" || c.apiHost == "" then
          ExecAction.fatalMissingUploadConfig
        else
          ExecAction.runUpload (newRestoreTask c.backupId c.restoreFilter c.taskId
            c.tokenHost c.tokenPort c.apiHost r)
      else if s != "restore" then ExecAction.fatalUnknownSubcommand
      else if c.backupId == "" || c.restoreFilter == "" || c.namespaceArg == "" ||
          c.taskId == "" then
        ExecAction.fatalMissingRestoreConfig
      else
        ExecAction.runRestore (newRestoreTask c.backupId c.restoreFilter c.taskId
          c.tokenHost c.tokenPort c.apiHost r)) := rfl

theorem executeDispatch_upload (rest : List String) (c : Config) (r : Nat) :
    executeDispatch ("upload" :: rest) c r =
      if c.backupId == "" || c.taskId == "" || c.tokenHost == "" ||
          c.tokenPort == "" || c.apiHost == "" then
        ExecAction.fatalMissingUploadConfig
      else
        ExecAction.runUpload (newRestoreTask c.backupId c.restoreFilter c.taskId
          c.tokenHost c.tokenPort c.apiHost r) := by
  rw [executeDispatch_cons]
  norm_num

theorem upload_validation_amended (rest : List String) (c : Config) (r : Nat) :
    ((∃ t, executeDispatch ("upload" :: rest) c r = ExecAction.runUpload t) ↔
      (c.backupId ≠ "" ∧ c.taskId ≠ "" ∧ c.tokenHost ≠ "" ∧
        c.tokenPort ≠ "" ∧ c.apiHost ≠ "")) ∧
    ((c.backupId = "" ∨ c.taskId = "" ∨ c.tokenHost = "" ∨
        c.tokenPort = "" ∨ c.apiHost = "") →
      executeDispatch ("upload" :: rest) c r = ExecAction.fatalMissingUploadConfig) := by
  by_cases hb : (c.backupId == "" || c.taskId == "" || c.tokenHost == "" ||
      c.tokenPort == "" || c.apiHost == "") = true
  · have hf : executeDispatch ("upload" :: rest) c r =
        ExecAction.fatalMissingUploadConfig := by
      rw [executeDispatch_upload, if_pos hb]
    have hprop : c.backupId = "" ∨ c.taskId = "" ∨ c.tokenHost = "" ∨
        c.tokenPort = "" ∨ c.apiHost = "" := by
      simpa [or_assoc] using hb
    refine ⟨⟨?_, fun hc => ?_⟩, fun _ => hf⟩
    · rintro ⟨t, ht⟩
      exact absurd (hf.symm.trans ht) (by simp)
    · obtain ⟨n1, n2, n3, n4, n5⟩ := hc
      rcases hprop with h | h | h | h | h
      exacts [absurd h n1, absurd h n2, absurd h n3, absurd h n4, absurd h n5]
  · have hprop : c.backupId ≠ "" ∧ c.taskId ≠ "" ∧ c.tokenHost ≠ "" ∧
        c.tokenPort ≠ "" ∧ c.apiHost ≠ "" := by
      simpa [not_or, and_assoc] using hb
    have hr : executeDispatch ("upload" :: rest) c r =
        ExecAction.runUpload (newRestoreTask c.backupId c.restoreFilter c.taskId
          c.tokenHost c.tokenPort c.apiHost r) := by
      rw [executeDispatch_upload, if_neg hb]
    refine ⟨⟨fun _ => hprop, fun _ => ⟨_, hr⟩⟩, fun hc => ?_⟩
    obtain ⟨n1, n2, n3, n4, n5⟩ := hprop
    rcases hc with h | h | h | h | h
    exacts [absurd h n1, absurd h n2, absurd h n3, absurd h n4, absurd h n5]

/-- Witness for `upload_validation_amended` at a fully populated config. -/
theorem upload_validation_amended_witness :
    ((∃ t, executeDispatch ["upload"] (Config.mk "b" "f" "n" "t" "h" "p" "a") 0 =
        ExecAction.runUpload t) ↔
      ((Config.mk "b" "f" "n" "t" "h" "p" "a").backupId ≠ "" ∧
        (Config.mk "b" "f" "n" "t" "h" "p" "a").taskId ≠ "" ∧
        (Config.mk "b" "f" "n" "t" "h" "p" "a").tokenHost ≠ "" ∧
        (Config.mk "b" "f" "n" "t" "h" "p" "a").tokenPort ≠ "" ∧
        (Config.mk "b" "f" "n" "t" "h" "p" "a").apiHost ≠ "")) ∧
    (((Config.mk "b" "f" "n" "t" "h" "p" "a").backupId = "" ∨
        (Config.mk "b" "f" "n" "t" "h" "p" "a").taskId = "" ∨
        (Config.mk "b" "f" "n" "t" "h" "p" "a").tokenHost = "" ∨
        (Config.mk "b" "f" "n" "t" "h" "p" "a").tokenPort = "" ∨
        (Config.mk "b" "f" "n" "t" "h" "p" "a").apiHost = "") →
      executeDispatch ["upload"] (Config.mk "b" "f" "n" "t" "h" "p" "a") 0 =
        ExecAction.fatalMissingUploadConfig) :=
  upload_validation_amended [] (Config.mk "b" "f" "n" "t" "h" "p" "a") 0

/-- C9: when JSON_PAYLOAD is set but base64 decoding fails, or it decodes
but is not valid JSON, the error is ignored: the backup ID and restore
filter arguments are both `""`, exactly as when the variable is unset, and
the payload-loading step itself never produces a failure. -/
theorem json_payload_errors_ignored (dec : String → Option (List Nat))
    (um : List Nat → Option TaskArgs) (env : String)
    (h : dec env = none ∨ ∃ b, dec env = some b ∧ um b = none) :
    loadPayloadArgs dec um env = ("", "") ∧
    loadPayloadArgs dec um env = loadPayloadArgs dec um "" := by
  have h0 : loadPayloadArgs dec um "" = ("", "") := by simp [loadPayloadArgs]
  by_cases he : env = ""
  · subst he
    exact ⟨h0, rfl⟩
  · rcases h with h | ⟨b, hb, hu⟩
    · constructor <;> simp [loadPayloadArgs, he, h, h0]
    · constructor <;> simp [loadPayloadArgs, he, hb, hu, h0]

/-- Witness for `json_payload_errors_ignored` with a decoder that always
fails on the set value "notbase64!". -/
theorem json_payload_errors_ignored_witness :
    ((fun _ : String => (none : Option (List Nat))) "notbase64!" = none ∨
      ∃ b, (fun _ : String => (none : Option (List Nat))) "notbase64!" = some b ∧
        (fun _ : List Nat => (none : Option TaskArgs)) b = none) ∧
    (loadPayloadArgs (fun _ => none) (fun _ => none) "notbase64!" = ("", "") ∧
      loadPayloadArgs (fun _ => none) (fun _ => none) "notbase64!" =
        loadPayloadArgs (fun _ => none) (fun _ => none) "") :=
  ⟨Or.inl rfl,
    json_payload_errors_ignored (fun _ => none) (fun _ => none) "notbase64!" (Or.inl rfl)⟩

/-- C10: `NewRestoreTask` substitutes a random `"rnd-NNNN"` ID when the
supplied task ID is empty, but both subcommand paths fatally reject an
empty task ID before entering a workflow, so every execution that reaches
a workflow runs with the task ID equal to the caller-supplied, non-empty
one — the random fallback never influences a workflow. -/
theorem random_id_fallback_unreachable (args : List String) (c : Config) (r : Nat)
    (t : TaskState)
    (h : executeDispatch args c r = ExecAction.runUpload t ∨
      executeDispatch args c r = ExecAction.runRestore t) :
    c.taskId ≠ "" ∧ t.taskId = c.taskId ∧ t.key = taskKey c.taskId := by
  match args with
  | [] =>
    rcases h with h | h <;> cases h
  | subcommand :: rest =>
    have htid : c.taskId ≠ "" →
        (newRestoreTask c.backupId c.restoreFilter c.taskId
          c.tokenHost c.tokenPort c.apiHost r).taskId = c.taskId ∧
        (newRestoreTask c.backupId c.restoreFilter c.taskId
          c.tokenHost c.tokenPort c.apiHost r).key = taskKey c.taskId := by
      intro hne
      simp [newRestoreTask, hne]
    rw [executeDispatch_cons] at h
    rcases h with h | h
    · split at h
      · split at h
        · cases h
        · rename_i hc
          simp only [Bool.or_eq_true, beq_iff_eq, not_or] at hc
          obtain ⟨⟨⟨⟨-, h2⟩, -⟩, -⟩, -⟩ := hc
          obtain ⟨e1, e2⟩ := htid h2
          cases h
          exact ⟨h2, e1, e2⟩
      · split at h
        · cases h
        · split at h
          · cases h
          · cases h
    · split at h
      · split at h <;> cases h
      · split at h
        · cases h
        · split at h
          · cases h
          · rename_i hc
            simp only [Bool.or_eq_true, beq_iff_eq, not_or] at hc
            obtain ⟨⟨⟨-, -⟩, -⟩, h2⟩ := hc
            obtain ⟨e1, e2⟩ := htid h2
            cases h
            exact ⟨h2, e1, e2⟩

/-- Witness for `random_id_fallback_unreachable` on a concrete restore run. -/
theorem random_id_fallback_unreachable_witness :
    (executeDispatch ["restore"] (Config.mk "b" "f" "n" "t" "h" "p" "a") 7 =
        ExecAction.runUpload (newRestoreTask "b" "f" "t" "h" "p" "a" 7) ∨
      executeDispatch ["restore"] (Config.mk "b" "f" "n" "t" "h" "p" "a") 7 =
        ExecAction.runRestore (newRestoreTask "b" "f" "t" "h" "p" "a" 7)) ∧
    ((Config.mk "b" "f" "n" "t" "h" "p" "a").taskId ≠ "" ∧
      (newRestoreTask "b" "f" "t" "h" "p" "a" 7).taskId =
        (Config.mk "b" "f" "n" "t" "h" "p" "a").taskId ∧
      (newRestoreTask "b" "f" "t" "h" "p" "a" 7).key =
        taskKey (Config.mk "b" "f" "n" "t" "h" "p" "a").taskId) :=
  ⟨Or.inr (by decide),
    random_id_fallback_unreachable ["restore"] (Config.mk "b" "f" "n" "t" "h" "p" "a") 7
      (newRestoreTask "b" "f" "t" "h" "p" "a" 7) (Or.inr (by decide))⟩

theorem processRestoreEvent_breaks (conds : List Condition) :
    (processRestoreEvent conds).2 = isTerminalEvent (WatchEvent.restoreObj conds) := by
  simp only [processRestoreEvent, isTerminalEvent]
  cases hr : findStatusCondition conds "Ready" with
  | none =>
    cases hc : findStatusCondition conds "Completed" with
    | none => simp [Option.any]
    | some c => simp [Option.any]
  | some r =>
    by_cases hcf : (r.reason == "CreationFailed") = true
    · simp [hcf, Option.any]
    · cases hc : findStatusCondition conds "Completed" with
      | none => simp [hcf, Option.any]
      | some c => simp [hcf, Option.any]

theorem waitLoop_characterization (events : List WatchEvent) :
    (∀ i, firstTerminal events = some i →
      waitLoop events = (((events.take (i + 1)).map eventLogs).flatten, i + 1, true)) ∧
    (firstTerminal events = none →
      waitLoop events = ((events.map eventLogs).flatten, events.length, false)) := by
  induction events with
  | nil =>
    constructor
    · intro i h
      simp [firstTerminal] at h
    · intro _
      simp [waitLoop]
  | cons e rest ih =>
    obtain ⟨ih1, ih2⟩ := ih
    by_cases ht : isTerminalEvent e = true
    · constructor
      · intro i h
        simp only [firstTerminal, if_pos ht] at h
        injection h with h
        subst h
        cases e with
        | other => simp [isTerminalEvent] at ht
        | restoreObj conds =>
          have hb : (processRestoreEvent conds).2 = true := by
            rw [processRestoreEvent_breaks]
            exact ht
          simp [waitLoop, hb, eventLogs]
      · intro h
        simp [firstTerminal, if_pos ht] at h
    · have htf : isTerminalEvent e = false := by simpa using ht
      have hstep : waitLoop (e :: rest) =
          (eventLogs e ++ (waitLoop rest).1, (waitLoop rest).2.1 + 1,
            (waitLoop rest).2.2) := by
        cases e with
        | other => simp [waitLoop, eventLogs]
        | restoreObj conds =>
          have hb : (processRestoreEvent conds).2 = false := by
            rw [processRestoreEvent_breaks]
            exact htf
          simp [waitLoop, hb, eventLogs]
      constructor
      · intro i h
        simp only [firstTerminal, htf, Bool.false_eq_true, if_false] at h
        cases hj : firstTerminal rest with
        | none =>
          rw [hj] at h
          cases h
        | some j =>
          rw [hj] at h
          simp only [Option.map_some'] at h
          injection h with h
          subst h
          rw [hstep, ih1 j hj]
          simp [List.take_succ_cons]
      · intro h
        simp only [firstTerminal, htf, Bool.false_eq_true, if_false] at h
        cases hj : firstTerminal rest with
        | none =>
          rw [hstep, ih2 hj]
          simp
        | some j =>
          rw [hj] at h
          cases h

/-- C3: for every finite sequence of watch events, the wait loop processes
events in order (its log output is the concatenation of the per-event logs
of the consumed prefix) and exits at exactly the first event whose Ready
condition has reason "CreationFailed" or whose Completed condition has
status true, or when the channel closes if no such event arrives; and the
number of watch sessions stopped equals the number started on every exit
path of `WaitForRestore` (including the watch-creation-failure path). -/
theorem wait_for_restore_exits_at_first_terminal (events : List WatchEvent) :
    ((waitForRestore (some events)).watchesStopped
        = (waitForRestore (some events)).watchesStarted ∧
      (waitForRestore none).watchesStopped = (waitForRestore none).watchesStarted) ∧
    (∀ i, firstTerminal events = some i →
      (waitForRestore (some events)).exitedViaBreak = true ∧
      (waitForRestore (some events)).consumed = i + 1 ∧
      (waitForRestore (some events)).logs = ((events.take (i + 1)).map eventLogs).flatten) ∧
    (firstTerminal events = none →
      (waitForRestore (some events)).exitedViaBreak = false ∧
      (waitForRestore (some events)).consumed = events.length ∧
      (waitForRestore (some events)).logs = (events.map eventLogs).flatten) := by
  obtain ⟨h1, h2⟩ := waitLoop_characterization events
  refine ⟨⟨rfl, rfl⟩, fun i hi => ?_, fun hn => ?_⟩
  · simp [waitForRestore, h1 i hi]
  · simp [waitForRestore, h2 hn]

/-- Witness for `wait_for_restore_exits_at_first_terminal` on a concrete
event sequence: a Progressing update, then a Completed=true event (the
loop stops there, consuming two events), then a further event that is
never consumed. -/
theorem wait_for_restore_exits_at_first_terminal_witness :
    firstTerminal sampleEvents = some 1 ∧
    ((waitForRestore (some sampleEvents)).exitedViaBreak = true ∧
      (waitForRestore (some sampleEvents)).consumed = 1 + 1 ∧
      (waitForRestore (some sampleEvents)).logs =
        ((sampleEvents.take (1 + 1)).map eventLogs).flatten) :=
  ⟨rfl, (wait_for_restore_exits_at_first_terminal sampleEvents).2.1 1 rfl⟩

/-- C7: `StartRestore` returns an error and creates no restore request
when the schedule configuration object is absent from the namespace;
otherwise (creation succeeding) it creates exactly one restore request
named by the task key, referencing the given volume claim, the backup
identifier and path filter, carrying the schedule's backend configuration,
with both KeepJobs and FailedJobsHistoryLimit fixed to 1. -/
theorem start_restore_creates_one_request (t : TaskState)
    (schedules : String → Option Schedule) (createErr : Option String)
    (pvcName : String) :
    (schedules "k8up-lagoon-backup-schedule" = none →
      (∃ e, (startRestore t schedules createErr pvcName).1 = Except.error e) ∧
      (startRestore t schedules createErr pvcName).2 = []) ∧
    (∀ s, schedules "k8up-lagoon-backup-schedule" = some s → createErr = none →
      (startRestore t schedules createErr pvcName).1 =
        Except.ok (RestoreResource.mk t.key t.backupId t.restoreFilter pvcName
          s.backend (some 1) (some 1)) ∧
      (startRestore t schedules createErr pvcName).2 =
        [RestoreResource.mk t.key t.backupId t.restoreFilter pvcName
          s.backend (some 1) (some 1)]) := by
  constructor
  · intro h
    refine ⟨⟨"failed to get schedule", ?_⟩, ?_⟩ <;> simp [startRestore, h]
  · intro s hs hc
    subst hc
    constructor <;> simp [startRestore, hs]

/-- Witness for `start_restore_creates_one_request`: with no schedule in
the namespace nothing is created; with a schedule present exactly the one
fully populated restore request is created. -/
theorem start_restore_creates_one_request_witness :
    ((startRestore (newRestoreTask "b" "f" "t" "h" "p" "a" 0) (fun _ => none)
        none "pvc-1").2 = []) ∧
    ((startRestore (newRestoreTask "b" "f" "t" "h" "p" "a" 0)
        (fun _ => some (Schedule.mk (Backend.mk "s3"))) none "pvc-1").2 =
      [RestoreResource.mk (newRestoreTask "b" "f" "t" "h" "p" "a" 0).key
        (newRestoreTask "b" "f" "t" "h" "p" "a" 0).backupId
        (newRestoreTask "b" "f" "t" "h" "p" "a" 0).restoreFilter "pvc-1"
        (Schedule.mk (Backend.mk "s3")).backend (some 1) (some 1)]) :=
  ⟨((start_restore_creates_one_request (newRestoreTask "b" "f" "t" "h" "p" "a" 0)
      (fun _ => none) none "pvc-1").1 rfl).2,
   ((start_restore_creates_one_request (newRestoreTask "b" "f" "t" "h" "p" "a" 0)
      (fun _ => some (Schedule.mk (Backend.mk "s3"))) none "pvc-1").2
      (Schedule.mk (Backend.mk "s3")) rfl rfl).2⟩

/-- C8: in the upload operation a task ID string that is not a decimal
integer does not cause an error: the `strconv.Atoi` error is discarded and
the archive is submitted against task record ID 0 instead of the upload
failing. -/
theorem non_numeric_task_id_uploads_as_zero (t : TaskState) (tok : String)
    (archiveName : String) (h : parseDecInt? t.taskId = none) :
    uploadArchiveToLagoon t (Except.ok tok) none archiveName =
      (Except.ok (), some (UploadCall.mk 0 [archiveName])) := by
  simp [uploadArchiveToLagoon, goAtoi, h]

/-- Witness for `non_numeric_task_id_uploads_as_zero` with the
non-numeric task ID "abc". -/
theorem non_numeric_task_id_uploads_as_zero_witness :
    parseDecInt? (newRestoreTask "b" "f" "abc" "h" "p" "a" 0).taskId = none ∧
    uploadArchiveToLagoon (newRestoreTask "b" "f" "abc" "h" "p" "a" 0)
        (Except.ok "tok") none "arch.tgz" =
      (Except.ok (), some (UploadCall.mk 0 ["arch.tgz"])) :=
  ⟨by decide,
   non_numeric_task_id_uploads_as_zero (newRestoreTask "b" "f" "abc" "h" "p" "a" 0)
     "tok" "arch.tgz" (by decide)⟩

theorem endsWithSlash_append_slash (s : String) : endsWithSlash (s ++ "/") = true := by
  have hd : (s ++ "/").data = s.data ++ ['/'] := by
    rw [String.data_append]
  simp [endsWithSlash, hd, List.getLast?_concat]

/-- C4: for every existing source directory containing files at relative
paths P1..Pn, the archive operation produces an archive whose entries are
exactly P1..Pn — the cleaned, trailing-slash-terminated source path is
mapped to the empty prefix, so there is no entry for the source root
itself — and unpacking the produced archive reproduces the original
relative file set byte-for-byte. -/
theorem archive_restore_round_trip (t : TaskState) (disk : String → Option SourceDir)
    (restoreTarget archiveTarget : String) (dir : SourceDir)
    (h : disk restoreTarget = some dir) :
    ∃ name entries,
      archiveRestore t disk restoreTarget archiveTarget = Except.ok (name, entries) ∧
      entries.map (fun e => e.nameInArchive) = dir.files.map (fun f => f.1) ∧
      unpackArchive entries = dir.files := by
  have hslash : endsWithSlash (goFilepathClean restoreTarget ++ "/") = true :=
    endsWithSlash_append_slash _
  have hfiles : filesFromDisk dir (goFilepathClean restoreTarget ++ "/") "" =
      dir.files.map (fun f => ArchiveEntry.mk f.1 f.2) := by
    simp [filesFromDisk, hslash, joinArchiveName]
  refine ⟨goFilepathClean
      (archiveTarget ++ "/" ++ ("restore-" ++ t.backupId ++ "-t" ++ t.taskId ++ ".tar.gz")),
    dir.files.map (fun f => ArchiveEntry.mk f.1 f.2), ?_, ?_, ?_⟩
  · simp [archiveRestore, h, tarGzArchive, hfiles]
  · simp [List.map_map]
  · simp only [unpackArchive, List.map_map]
    exact List.map_id dir.files

/-- Witness for `archive_restore_round_trip` on a concrete directory with
two files, restore target "/restore" and archive target "/archive". -/
theorem archive_restore_round_trip_witness :
    ((fun p => if p = "/restore" then some sampleDir else none) : String → Option SourceDir)
      "/restore" = some sampleDir ∧
    ∃ name entries,
      archiveRestore (newRestoreTask "b" "f" "t" "h" "p" "a" 0)
          (fun p => if p = "/restore" then some sampleDir else none)
          "/restore" "/archive" = Except.ok (name, entries) ∧
      entries.map (fun e => e.nameInArchive) = sampleDir.files.map (fun f => f.1) ∧
      unpackArchive entries = sampleDir.files :=
  ⟨by simp,
   archive_restore_round_trip (newRestoreTask "b" "f" "t" "h" "p" "a" 0)
     (fun p => if p = "/restore" then some sampleDir else none)
     "/restore" "/archive" sampleDir (by simp)⟩

/-- C1 (spec-modelled): after the wait completes, a status whose Completed
condition is present with status true is classified success; one whose
Completed condition is present (status not true) with reason "Failed" is
classified failure with that condition's message as the error detail; and
one with no Completed condition whose Ready reason is not "CreationFailed"
is classified failure with the raw status surfaced for diagnosis. -/
theorem classify_restore_status_spec (conds : List Condition) :
    (∀ comp, findStatusCondition conds "Completed" = some comp →
      comp.status = "True" →
      classifyRestoreStatus conds = RestoreClassification.success) ∧
    (∀ comp, findStatusCondition conds "Completed" = some comp →
      comp.status ≠ "True" → comp.reason = "Failed" →
      classifyRestoreStatus conds = RestoreClassification.failed comp.message ∧
      (classifyRestoreStatus conds).isFailure = true) ∧
    (findStatusCondition conds "Completed" = none →
      (∀ r, findStatusCondition conds "Ready" = some r →
        r.reason ≠ "CreationFailed") →
      classifyRestoreStatus conds = RestoreClassification.failedRaw conds ∧
      (classifyRestoreStatus conds).isFailure = true) := by
  refine ⟨?_, ?_, ?_⟩
  · intro comp hc hs
    simp [classifyRestoreStatus, hc, hs]
  · intro comp hc hs hr
    have hs2 : (comp.status == "True") = false := beq_eq_false_iff_ne.mpr hs
    simp [classifyRestoreStatus, hc, hs2, hr, RestoreClassification.isFailure]
  · intro hc hr
    cases hready : findStatusCondition conds "Ready" with
    | none => simp [classifyRestoreStatus, hc, hready, RestoreClassification.isFailure]
    | some r =>
      have hne : (r.reason == "CreationFailed") = false :=
        beq_eq_false_iff_ne.mpr (hr r hready)
      simp [classifyRestoreStatus, hc, hready, hne, RestoreClassification.isFailure]

/-- Witness for `classify_restore_status_spec` at three concrete statuses:
Completed=true, Completed false with reason Failed, and a Ready-only
status with a non-CreationFailed reason. -/
theorem classify_restore_status_spec_witness :
    classifyRestoreStatus [Condition.mk "Completed" "True" "Finished" "ok"] =
      RestoreClassification.success ∧
    (classifyRestoreStatus [Condition.mk "Completed" "False" "Failed" "boom"] =
      RestoreClassification.failed "boom" ∧
      (classifyRestoreStatus
        [Condition.mk "Completed" "False" "Failed" "boom"]).isFailure = true) ∧
    (classifyRestoreStatus [Condition.mk "Ready" "True" "Progressing" "r"] =
      RestoreClassification.failedRaw [Condition.mk "Ready" "True" "Progressing" "r"] ∧
      (classifyRestoreStatus
        [Condition.mk "Ready" "True" "Progressing" "r"]).isFailure = true) :=
  ⟨(classify_restore_status_spec [Condition.mk "Completed" "True" "Finished" "ok"]).1
      (Condition.mk "Completed" "True" "Finished" "ok") rfl rfl,
   (classify_restore_status_spec [Condition.mk "Completed" "False" "Failed" "boom"]).2.1
      (Condition.mk "Completed" "False" "Failed" "boom") rfl (by decide) rfl,
   (classify_restore_status_spec [Condition.mk "Ready" "True" "Progressing" "r"]).2.2
      rfl (by
        intro r hr
        have h0 : findStatusCondition [Condition.mk "Ready" "True" "Progressing" "r"]
            "Ready" = some (Condition.mk "Ready" "True" "Progressing" "r") := rfl
        rw [h0] at hr
        rw [← Option.some.inj hr]
        decide)⟩

theorem bootstrapUploadPod_accounting (oc : ClusterOutcomes) (taskImage : String) :
    ((bootstrapUploadPod oc taskImage).result = Except.ok () →
      (bootstrapUploadPod oc taskImage).cleanupPasses = 0 ∧
      (bootstrapUploadPod oc taskImage).resourcesCreated = true) ∧
    (∀ e, (bootstrapUploadPod oc taskImage).result = Except.error e →
      ((bootstrapUploadPod oc taskImage).cleanupPasses = 1 ∧
        (bootstrapUploadPod oc taskImage).resourcesCreated = true) ∨
      ((bootstrapUploadPod oc taskImage).cleanupPasses = 0 ∧
        (bootstrapUploadPod oc taskImage).resourcesCreated = false)) := by
  obtain ⟨img, a1, a2, a3, a4, a5⟩ := oc
  cases img <;> cases a1 <;> cases a2 <;> cases a3 <;> cases a4 <;> cases a5 <;>
    simp only [bootstrapUploadPod] <;> (try split) <;> simp

theorem deleteBestEffort_attempts (deleteErr : String → Option String)
    (kind : String) (o : Option String) :
    (deleteBestEffort deleteErr kind o).1.map (fun a => a.resource) = o.toList ∧
    (deleteBestEffort deleteErr kind o).1.all
      (fun a => decide (a.logged = deleteErr a.resource)) = true := by
  cases o with
  | none => simp [deleteBestEffort]
  | some nm =>
    cases hd : deleteErr nm with
    | none => simp [deleteBestEffort, hd]
    | some e => simp [deleteBestEffort, hd]

/-- C5: cleanup is best-effort and exactly-once. A cleanup pass attempts
the deletion of every non-nil resource it is given, in order, no matter
which deletions fail (each failure is recorded/logged, never aborting the
pass: deleting an already-deleted resource just logs its error); and the
workflow performs exactly one cleanup pass per created resource set on
every path — one over the restore set always, and one over the bootstrap
set exactly when the bootstrap reached resource creation, regardless of
which step failed. -/
theorem cleanup_once_and_best_effort (deleteErr : String → Option String)
    (pvc restore pod : Option String) (restoreOk : Bool) (oc : ClusterOutcomes)
    (taskImage : String) (skipBootstrap : Bool) :
    ((cleanup deleteErr pvc restore).1.map (fun a => a.resource) =
      restore.toList ++ pvc.toList) ∧
    ((cleanup deleteErr pvc restore).1.all
      (fun a => decide (a.logged = deleteErr a.resource)) = true) ∧
    ((cleanup3 deleteErr pvc restore pod).1.map (fun a => a.resource) =
      restore.toList ++ pvc.toList ++ pod.toList) ∧
    ((cleanup3 deleteErr pvc restore pod).1.all
      (fun a => decide (a.logged = deleteErr a.resource)) = true) ∧
    ((restoreWorkflow restoreOk oc taskImage skipBootstrap).restoreSetCleanupPasses
      = 1) ∧
    ((restoreWorkflow restoreOk oc taskImage skipBootstrap).bootstrapSetCleanupPasses =
      if (restoreWorkflow restoreOk oc taskImage skipBootstrap).bootstrapResourcesCreated
      then 1 else 0) := by
  obtain ⟨hr1, hr2⟩ := deleteBestEffort_attempts deleteErr "restore" restore
  obtain ⟨hp1, hp2⟩ := deleteBestEffort_attempts deleteErr "pvc" pvc
  obtain ⟨hq1, hq2⟩ := deleteBestEffort_attempts deleteErr "pod" pod
  refine ⟨?_, ?_, ?_, ?_, ?_, ?_⟩
  · simp [cleanup, hr1, hp1]
  · simp only [cleanup, List.all_append]
    rw [hr2, hp2]
    rfl
  · simp [cleanup3, cleanup, hr1, hp1, hq1]
  · simp only [cleanup3, cleanup, List.all_append]
    rw [hr2, hp2, hq2]
    rfl
  · cases restoreOk with
    | false => simp [restoreWorkflow]
    | true =>
      cases skipBootstrap with
      | true => simp [restoreWorkflow]
      | false =>
        simp only [restoreWorkflow, Bool.not_true, Bool.false_eq_true, if_false,
          if_true, Bool.true_eq_false]
        cases hres : (bootstrapUploadPod oc taskImage).result <;> simp [hres]
  · cases restoreOk with
    | false => simp [restoreWorkflow]
    | true =>
      cases skipBootstrap with
      | true => simp [restoreWorkflow]
      | false =>
        obtain ⟨h1, h2⟩ := bootstrapUploadPod_accounting oc taskImage
        simp only [restoreWorkflow, Bool.not_true, Bool.false_eq_true, if_false,
          if_true, Bool.true_eq_false]
        cases hres : (bootstrapUploadPod oc taskImage).result with
        | ok u =>
          cases u
          obtain ⟨e1, e2⟩ := h1 hres
          simp [e1, e2]
        | error e =>
          rcases h2 e hres with ⟨e1, e2⟩ | ⟨e1, e2⟩ <;> simp [e1, e2]

end RestoreFilesTask
